import Mathlib

/-
  Verification development for the NeteaseMusic download plugin
  (plugins.v2/neteasemusic/__init__.py).

  The plugin implements a conversational search-and-download flow:
  a search command (/y) stores a per-user session holding the result
  list, and a selection command (/n) drives pagination, track choice,
  quality choice and the download call.  The definitions below are a
  shallow embedding of the session store, the two command handlers and
  the download helper, translated directly from the Python source.

  Conventions used in the embedding:
  - Python dicts holding the session are modelled by `Session` /
    `SessionData`; a missing dict key is `none` and `Option.getD`
    mirrors `dict.get(key, default)`.
  - `time.time()` values are modelled as integers (only order and
    differences matter to the code).
  - Outbound messages (`post_message`, `post_medias_message`) are
    collected in a `Reply` list; calls to the remote download API are
    collected in a `(song id, quality code)` list, and the outcome the
    remote service would report is passed in as a `DownloadOutcome`
    parameter, since the service is an external collaborator.
-/

namespace NeteaseMusic

/-- Character-list version: does `sub` occur at the start of `hay`? -/
def leadsWith : List Char → List Char → Bool
  | _, [] => true
  | [], _ :: _ => false
  | a :: as, b :: bs => a = b && leadsWith as bs

/-- Does `sub` occur contiguously anywhere inside `hay`? -/
def occursIn : List Char → List Char → Bool
  | [], sub => sub.isEmpty
  | c :: t, sub => leadsWith (c :: t) sub || occursIn t sub

/-- Substring test on strings, used to state what a user-facing message
reports. -/
def strOccurs (hay sub : String) : Bool :=
  occursIn hay.data sub.data

/-- Numeric value of a digit list, when it is nonempty and all digits;
mirrors what Python `int(...)` accepts for plain numerals. -/
def digitsVal? (cs : List Char) : Option Nat :=
  if cs ≠ [] ∧ cs.all Char.isDigit then
    some (cs.foldl (fun a c => a * 10 + (c.toNat - 48)) 0)
  else none

/-- Model of Python `int(s)` on stripped input: optional sign followed
by digits; `none` models the `ValueError` branch. -/
def pyInt? (s : String) : Option Int :=
  match s.data with
  | '-' :: rest => (digitsVal? rest).map (fun n => -(n : Int))
  | '+' :: rest => (digitsVal? rest).map (fun n => (n : Int))
  | cs => (digitsVal? cs).map (fun n => (n : Int))

/-- Model of Python `str.lower()` (ASCII, which covers the page tokens
the dispatcher compares against). -/
def pyLower (s : String) : String :=
  ⟨s.data.map Char.toLower⟩

/-- A song dict as returned by the search API; the empty string models
a missing or empty field, matching `song.get(key, '')`. -/
structure Song where
  id : String
  name : String
  artists : String
  ar_name : String
  deriving Repr, DecidableEq

/-- Mirrors `song.get('artists', '') or song.get('ar_name', '')`. -/
def artistDisplay (s : Song) : String :=
  if s.artists = "" then s.ar_name else s.artists

/-- One quality tier entry of the fixed catalog. -/
structure QualityOption where
  code : String
  name : String
  desc : String
  deriving Repr, DecidableEq

/-- The fixed 7-entry quality catalog, as written inline in
`_handle_quality_selection`, `_format_quality_list` and
`_download_song_with_quality`. -/
def quality_options : List QualityOption :=
  [⟨"standard", "标准音质", "128kbps MP3"⟩,
   ⟨"exhigh", "极高音质", "320kbps MP3"⟩,
   ⟨"lossless", "无损音质", "FLAC"⟩,
   ⟨"hires", "Hi-Res音质", "24bit/96kHz"⟩,
   ⟨"sky", "沉浸环绕声", "空间音频"⟩,
   ⟨"jyeffect", "高清环绕声", "环绕声效果"⟩,
   ⟨"jymaster", "超清母带", "母带音质"⟩]

/-- The `exhigh` entry, the fallback used by
`quality_options.get(quality_code, quality_options[DEFAULT_QUALITY])`. -/
def exhighOption : QualityOption := ⟨"exhigh", "极高音质", "320kbps MP3"⟩

/-- Placeholder song used only as the default of a guarded list index. -/
def defaultSong : Song := ⟨"", "", "", ""⟩

/-- The value of the session's `data` dict; each field is a key that
may be absent. -/
structure SessionData where
  songs : Option (List Song)
  timestamp : Option Int
  current_page : Option Int
  query : Option String
  selected_song : Option Song
  deriving Repr, DecidableEq

/-- The empty `data` dict, i.e. `session.get("data", {})` when the key
is missing. -/
def SessionData.empty : SessionData := ⟨none, none, none, none, none⟩

/-- A stored session: the `state` string, the optional `data` dict and
the `last_active` stamp added by `_update_session`. -/
structure Session where
  state : String
  data : Option SessionData
  last_active : Int
  deriving Repr, DecidableEq

/-- The `_sessions` dictionary, keyed by user id. -/
def SessionStore := String → Option Session

/-- What a caller passes to `_update_session`: the session dict before
the `last_active` stamp is added. -/
structure SessionWrite where
  state : String
  data : Option SessionData
  deriving Repr, DecidableEq

/-- `SESSION_TIMEOUT = 300` seconds. -/
def SESSION_TIMEOUT : Int := 300

/-- `_update_session`: stamps `last_active = now` and overwrites the
user's record. -/
def update_session (m : SessionStore) (uid : String) (w : SessionWrite)
    (now : Int) : SessionStore :=
  fun u => if u = uid then some ⟨w.state, w.data, now⟩ else m u

/-- `self._sessions.pop(userid, None)`. -/
def popSession (m : SessionStore) (uid : String) : SessionStore :=
  fun u => if u = uid then none else m u

/-- `_get_session`: returns the session unless it is absent or stale by
`last_active`; a stale record is deleted.  The second component is the
store after the call. -/
def get_session (m : SessionStore) (uid : String) (now : Int) :
    Option Session × SessionStore :=
  match m uid with
  | none => (none, m)
  | some session =>
    if now - session.last_active > SESSION_TIMEOUT then
      (none, popSession m uid)
    else
      (some session, m)

/-- Plugin configuration read by the handlers: `default_quality` and
`openlist_url`, each possibly unset (`None`) or empty (both falsy). -/
structure Config where
  default_quality : Option String
  openlist_url : Option String
  deriving Repr, DecidableEq

/-- Mirrors a Python `value or default` chain on an optional string:
`None` and `""` both fall back to the default. -/
def orDefaultStr (o : Option String) (d : String) : String :=
  match o with
  | some s => if s = "" then d else s
  | none => d

/-- Python truthiness of an optional string config value. -/
def cfgTruthy (o : Option String) : Bool :=
  match o with
  | some s => s ≠ ""
  | none => false

/-- The `data` dict of a successful `/download` response. -/
structure DownloadData where
  name : String
  artist : String
  quality_name : String
  file_path : String
  file_size_formatted : String
  deriving Repr, DecidableEq

/-- What `download_music_for_link` comes back with: a success dict, a
failure dict with a message, or a raised exception. -/
inductive DownloadOutcome where
  | ok (d : DownloadData)
  | fail (msg : String)
  | exn
  deriving Repr, DecidableEq

/-- What `search_music` comes back with: a result list, a failure dict
with a message, or a raised exception. -/
inductive SearchOutcome where
  | ok (songs : List Song)
  | fail (msg : String)
  | exn
  deriving Repr, DecidableEq

/-- One outbound response: a plain text message (title, body), the
media-card listing of a whole result list, or the media-card listing of
one page of it. -/
inductive Reply where
  | text (title body : String)
  | mediaCard (query : String) (songs : List Song)
  | mediaPage (query : String) (songs : List Song) (page : Int)
  deriving Repr, DecidableEq

/-- Body of a text reply, empty for media cards. -/
def replyBody : Reply → String
  | .text _ b => b
  | .mediaCard _ _ => ""
  | .mediaPage _ _ _ => ""

/-- Result of one `/n` handler run: the outbound replies, the session
store afterwards, and the download API calls made (song id, quality
code). -/
structure SelectResult where
  replies : List Reply
  sessions : SessionStore
  downloads : List (String × String)

/-- Python `path.split("/")[-1]`. -/
def basename (p : String) : String :=
  (p.splitOn "/").getLastD ""

/-- Python `s.rstrip('/')`. -/
def rstripSlash (s : String) : String :=
  ⟨(s.data.reverse.dropWhile (fun c => c = '/')).reverse⟩

/-- The `replace("/", "_").replace("\\", "_").replace(":", "_")` chain
applied to a constructed file name. -/
def sanitizeName (s : String) : String :=
  ⟨s.data.map (fun c => if c = '/' ∨ c = '\\' ∨ c = ':' then '_' else c)⟩

/-- `_format_quality_list`: the 7-entry quality menu text. -/
def format_quality_list : String :=
  (quality_options.enum.foldl
    (fun acc qi =>
      acc ++ toString (qi.1 + 1) ++ ". " ++ qi.2.name ++ " (" ++ qi.2.desc ++ ")\n")
    "🎵 请选择下载音质:\n")
  ++ "\n请输入 /n 数字 选择音质，例如：/n 2"

/-- `_download_song_with_quality`: resolves the requested tier's local
display name, resets the session to idle, performs the download call
and reports the outcome.  Note the user-facing text is built from the
locally resolved `quality_name`, not from the service response. -/
def download_song_with_quality (cfg : Config) (m : SessionStore) (uid : String)
    (selected_song : Song) (quality_code : String) (now : Int)
    (dl : DownloadOutcome) : SelectResult :=
  let quality_info :=
    (quality_options.find? (fun q => q.code = quality_code)).getD exhighOption
  let quality_name := quality_info.name
  let song_name := selected_song.name
  let song_id := selected_song.id
  let artist := artistDisplay selected_song
  let m1 := update_session m uid ⟨"idle", none⟩ now
  let response :=
    "📥 开始下载: " ++ song_name ++ " - " ++ artist ++ " (" ++ quality_name
      ++ ")\n请稍候..."
  match dl with
  | .exn =>
    ⟨[Reply.text "🎵 音乐下载" "❌ 下载失败: 网络异常，请稍后重试"], m1,
      [(song_id, quality_code)]⟩
  | .ok d =>
    let link :=
      if cfgTruthy cfg.openlist_url then
        let filename :=
          if d.file_path ≠ "" then basename d.file_path
          else sanitizeName (song_name ++ " - " ++ artist)
        "\n🔗 下载链接: "
          ++ rstripSlash (cfg.openlist_url.getD "") ++ "/" ++ filename
      else ""
    ⟨[Reply.text "🎵 音乐下载完成" (response ++ "\n✅ 下载完成!" ++ link)], m1,
      [(song_id, quality_code)]⟩
  | .fail msg =>
    ⟨[Reply.text "🎵 音乐下载完成" (response ++ "\n❌ 下载失败: " ++ msg)], m1,
      [(song_id, quality_code)]⟩

/-- `_send_song_list_as_media_card`: first-page listing after a fresh
search.  The stored `data` dict has only the keys `songs` and `query` —
in particular no `timestamp` and no `current_page`. -/
def send_song_list_as_media_card (m : SessionStore) (uid query : String)
    (songs : List Song) (now : Int) : List Reply × SessionStore :=
  if songs = [] then
    ([Reply.text ("【" ++ query ++ "】") "❌ 未找到相关歌曲。"], m)
  else
    ([Reply.mediaCard query songs],
     update_session m uid
       ⟨"waiting_for_song_choice", some ⟨some songs, none, none, some query, none⟩⟩
       now)

/-- `_send_song_list_page_as_media_card`: one page of the listing; the
stored `data` dict carries `songs`, a fresh `timestamp`, the
`current_page` and the `query`. -/
def send_song_list_page_as_media_card (m : SessionStore) (uid query : String)
    (songs : List Song) (page : Int) (now : Int) : List Reply × SessionStore :=
  let total_songs := songs.length
  let start_idx : Int := page * 8
  let end_idx : Int := min (start_idx + 8) (total_songs : Int)
  let page_songs := (songs.drop start_idx.toNat).take (end_idx - start_idx).toNat
  if page_songs = [] then
    ([Reply.text ("【" ++ query ++ "】") "❌ 未找到相关歌曲。"], m)
  else
    ([Reply.mediaPage query page_songs page],
     update_session m uid
       ⟨"waiting_for_song_choice",
        some ⟨some songs, some now, some page, some query, none⟩⟩
       now)

/-- `_handle_quality_selection`: parses the quality number, validates it
against the 7-entry catalog, resets the session and downloads. -/
def handle_quality_selection (cfg : Config) (m : SessionStore) (uid args : String)
    (now : Int) (selected_song : Song) (dl : DownloadOutcome) : SelectResult :=
  match pyInt? args with
  | none =>
    ⟨[Reply.text "🎵 音质选择" "❌ 请输入有效的数字序号选择音质"], m, []⟩
  | some k =>
    let quality_index := k - 1
    if 0 ≤ quality_index ∧ quality_index < (quality_options.length : Int) then
      let selected_quality := quality_options.getD quality_index.toNat exhighOption
      let m1 := update_session m uid ⟨"idle", none⟩ now
      download_song_with_quality cfg m1 uid selected_song selected_quality.code now dl
    else
      ⟨[Reply.text "🎵 音质选择"
          ("❌ 序号超出范围，请输入 1-" ++ toString quality_options.length
            ++ " 之间的数字")], m, []⟩

/-- The pagination / numeric-selection part of `_handle_music_select`,
reached for a live session in the song-choice state (or the
quality-choice state whose `selected_song` is missing). -/
def select_body (cfg : Config) (m1 : SessionStore) (uid args : String) (now : Int)
    (dl : DownloadOutcome) (data : SessionData) : SelectResult :=
  let songs := data.songs.getD []
  let current_page := data.current_page.getD 0
  if pyLower args = "n" then
    let total_pages : Nat := (songs.length + 8 - 1) / 8
    if current_page < (total_pages : Int) - 1 then
      let data1 := {data with current_page := some (current_page + 1)}
      let m2 := update_session m1 uid ⟨"waiting_for_song_choice", some data1⟩ now
      let original_query := data1.query.getD args
      let r := send_song_list_page_as_media_card m2 uid original_query songs
        (current_page + 1) now
      ⟨r.1, r.2, []⟩
    else
      ⟨[Reply.text "🎵 歌曲选择" "❌ 已经是最后一页了"], m1, []⟩
  else if pyLower args = "p" then
    if current_page > 0 then
      let data1 := {data with current_page := some (current_page - 1)}
      let m2 := update_session m1 uid ⟨"waiting_for_song_choice", some data1⟩ now
      let original_query := data1.query.getD args
      let r := send_song_list_page_as_media_card m2 uid original_query songs
        (current_page - 1) now
      ⟨r.1, r.2, []⟩
    else
      ⟨[Reply.text "🎵 歌曲选择" "❌ 已经是第一页了"], m1, []⟩
  else
    match pyInt? args with
    | none =>
      ⟨[Reply.text "🎵 歌曲选择"
          "❌ 请输入有效的数字序号或翻页指令 (/n n 下一页, /n p 上一页)"], m1, []⟩
    | some k =>
      let song_index := k - 1
      if 0 ≤ song_index ∧ song_index < (songs.length : Int) then
        let selected_song := songs.getD song_index.toNat defaultSong
        let default_quality := orDefaultStr cfg.default_quality "exhigh"
        if default_quality = "ask" then
          let data1 := {data with selected_song := some selected_song}
          let m2 :=
            update_session m1 uid ⟨"waiting_for_quality_choice", some data1⟩ now
          ⟨[Reply.text "🎵 选择音质" format_quality_list], m2, []⟩
        else
          download_song_with_quality cfg m1 uid selected_song default_quality now dl
      else
        ⟨[Reply.text "🎵 歌曲选择"
            ("❌ 序号超出范围，请输入 1-" ++ toString songs.length
              ++ " 之间的数字")], m1, []⟩

/-- `_handle_music_select`: the `/n` command handler.  Checks the
session's presence, the inner `timestamp` freshness, then dispatches by
session state. -/
def handle_music_select (cfg : Config) (m : SessionStore) (uid command_args : String)
    (now : Int) (dl : DownloadOutcome) : SelectResult :=
  if uid = "" then ⟨[], m, []⟩
  else if command_args = "" then
    ⟨[Reply.text "🎵 歌曲选择" "请输入要选择的歌曲序号，例如：/n 1"], m, []⟩
  else
    let g := get_session m uid now
    match g.1 with
    | none =>
      ⟨[Reply.text "🎵 歌曲选择"
          "请先使用 /y 命令搜索歌曲，然后使用 /n 数字 来选择歌曲下载"], g.2, []⟩
    | some session =>
      let data := session.data.getD SessionData.empty
      if now - data.timestamp.getD 0 > SESSION_TIMEOUT then
        ⟨[Reply.text "🎵 歌曲选择" "搜索结果已过期，请重新使用 /y 命令搜索歌曲"],
          popSession g.2 uid, []⟩
      else if session.state = "waiting_for_quality_choice" then
        match data.selected_song with
        | some song => handle_quality_selection cfg g.2 uid command_args now song dl
        | none => select_body cfg g.2 uid command_args now dl data
      else if session.state = "waiting_for_song_choice" then
        select_body cfg g.2 uid command_args now dl data
      else
        ⟨[Reply.text "🎵 歌曲选择" "会话状态异常，请重新使用 /y 命令搜索歌曲"],
          popSession g.2 uid, []⟩

/-- `_handle_music_download`: the `/y` command handler; the outcome of
the external search call is a parameter. -/
def handle_music_download (m : SessionStore) (uid command_args : String)
    (now : Int) (search : SearchOutcome) : List Reply × SessionStore :=
  if uid = "" then ([], m)
  else if command_args = "" then
    ([Reply.text "🎵 音乐下载" "请输入要搜索的歌曲名称或歌手，例如：/y 周杰伦"], m)
  else
    match search with
    | .exn => ([Reply.text "🎵 音乐下载" "❌ 搜索时发生错误，请稍后重试"], m)
    | .fail msg =>
      ([Reply.text "🎵 音乐搜索结果" ("❌ 搜索失败: " ++ msg)], m)
    | .ok songs =>
      if songs = [] then
        ([Reply.text "🎵 音乐搜索结果" "❌ 未找到相关歌曲，请尝试其他关键词。"], m)
      else
        send_song_list_as_media_card m uid command_args songs now

/-- `handle_user_message`: the free-text listener.  Every path (plugin
disabled, missing text or user id, ordinary message) logs and returns
without sending anything or touching the session store. -/
def handle_user_message (enabled : Bool) (m : SessionStore)
    (text userid : String) : List Reply × SessionStore :=
  if !enabled then ([], m)
  else if text = "" ∨ userid = "" then ([], m)
  else ([], m)

/-- `mcp_download_music`: the MCP download tool's response text and
error flag; on success the text is built from the service response
fields, including its `quality_name`. -/
def mcp_download_music (cfg : Config) (dl : DownloadOutcome) : String × Bool :=
  match dl with
  | .ok d =>
    let response_text :=
      "✅ 下载完成!\n\n歌曲: " ++ d.name ++ "\n艺术家: " ++ d.artist
        ++ "\n音质: " ++ d.quality_name ++ "\n文件大小: " ++ d.file_size_formatted
    let response_text :=
      if cfgTruthy cfg.openlist_url && !(d.file_path = "") then
        response_text ++ "\n\n🔗 下载链接: "
          ++ rstripSlash (cfg.openlist_url.getD "") ++ "/" ++ basename d.file_path
      else response_text
    (response_text, false)
  | .fail msg => ("下载失败: " ++ msg, true)
  | .exn => ("下载异常", true)

/-- The store is updated at the written key. -/
theorem update_session_same (m : SessionStore) (uid : String) (w : SessionWrite)
    (now : Int) : update_session m uid w now uid = some ⟨w.state, w.data, now⟩ := by
  simp [update_session]

/-- A fresh record is returned unchanged and the store is untouched. -/
theorem get_session_fresh {m : SessionStore} {uid : String} {s : Session} {now : Int}
    (hm : m uid = some s) (h : now - s.last_active ≤ SESSION_TIMEOUT) :
    get_session m uid now = (some s, m) := by
  unfold get_session
  rw [hm]
  exact if_neg (by omega)

/-- Claim C2: the session-store get operation returns `None` and deletes
the record when `now - last_active` exceeds the 300-second TTL (after
which the record is gone from every later lookup), and otherwise
returns the stored session unchanged, leaving the store — and hence the
`last_active` stamp — untouched. -/
theorem C2_session_store_get_ttl (m : SessionStore) (uid : String) (s : Session)
    (now : Int) (hm : m uid = some s) :
    SESSION_TIMEOUT = 300 ∧
    (now - s.last_active > SESSION_TIMEOUT →
      (get_session m uid now).1 = none ∧
      (get_session m uid now).2 uid = none ∧
      (∀ u, u ≠ uid → (get_session m uid now).2 u = m u) ∧
      (∀ t, (get_session (get_session m uid now).2 uid t).1 = none)) ∧
    (now - s.last_active ≤ SESSION_TIMEOUT →
      get_session m uid now = (some s, m)) := by
  refine ⟨rfl, ?_, fun h => get_session_fresh hm h⟩
  intro h
  have hg : get_session m uid now = (none, popSession m uid) := by
    unfold get_session
    rw [hm]
    exact if_pos h
  refine ⟨by rw [hg], by rw [hg]; simp [popSession], ?_, ?_⟩
  · intro u hu
    rw [hg]
    simp [popSession, hu]
  · intro t
    rw [hg]
    unfold get_session
    simp [popSession]

/-- Concrete store used to witness C2. -/
def storeC2 : SessionStore :=
  fun u => if u = "u" then some ⟨"idle", none, 0⟩ else none

/-- Witness for C2 at a concrete store: a lookup 400s after the last
activity misses, one 100s after it hits. -/
theorem C2_session_store_get_ttl_witness :
    (get_session storeC2 "u" 400).1 = none ∧
    get_session storeC2 "u" 100 = (some ⟨"idle", none, 0⟩, storeC2) :=
  ⟨((C2_session_store_get_ttl storeC2 "u" ⟨"idle", none, 0⟩ 400
      (by decide)).2.1 (by decide)).1,
   (C2_session_store_get_ttl storeC2 "u" ⟨"idle", none, 0⟩ 100
      (by decide)).2.2 (by decide)⟩

/-- Claim C9: a put immediately followed by a get within the TTL
returns a session equal to the stored one in every field, except that
`last_active` is the time of the put. -/
theorem C9_put_then_get_roundtrip (m : SessionStore) (uid : String)
    (w : SessionWrite) (now t : Int) (h : t - now ≤ SESSION_TIMEOUT) :
    get_session (update_session m uid w now) uid t =
      (some ⟨w.state, w.data, now⟩, update_session m uid w now) :=
  get_session_fresh (update_session_same m uid w now) (by simpa using h)

/-- Witness for C9 at a concrete store, write and pair of times. -/
theorem C9_put_then_get_roundtrip_witness :
    get_session (update_session (fun _ => none) "u" ⟨"idle", none⟩ 50) "u" 100 =
      (some ⟨"idle", none, 50⟩,
       update_session (fun _ => none) "u" ⟨"idle", none⟩ 50) :=
  C9_put_then_get_roundtrip (fun _ => none) "u" ⟨"idle", none⟩ 50 100 (by decide)

/-- Counterexample to claim C8: a free-text message without a trigger
phrase from a user with no session produces no reply at all — the
handler emits no help/greeting text. -/
theorem C8_counterexample_no_greeting :
    (handle_user_message true (fun _ => none) "你好" "u1").1 = [] := by
  decide

/-- Claim C8 as amended: on every free-text message the listener sends
no response and leaves the session store unchanged (an Idle user stays
Idle); plain messages are handed to the host system instead. -/
theorem C8_amended_free_text_ignored (enabled : Bool) (m : SessionStore)
    (text userid : String) :
    handle_user_message enabled m text userid = ([], m) := by
  unfold handle_user_message
  split
  · rfl
  · split <;> rfl

/-- A successful search on a nonempty result list sends the media card
and stores the first-page session, whose `data` dict has only the
`songs` and `query` keys. -/
theorem handle_music_download_ok {m : SessionStore} {uid query : String}
    {now : Int} {songs : List Song}
    (huid : uid ≠ "") (hq : query ≠ "") (hs : songs ≠ []) :
    handle_music_download m uid query now (.ok songs) =
      ([Reply.mediaCard query songs],
       update_session m uid
         ⟨"waiting_for_song_choice", some ⟨some songs, none, none, some query, none⟩⟩
         now) := by
  unfold handle_music_download send_song_list_as_media_card
  rw [if_neg huid, if_neg hq]
  simp only [if_neg hs]

/-- For a live song-choice session with a fresh inner timestamp, the
`/n` handler runs the pagination/selection body. -/
theorem handle_music_select_song_choice {cfg : Config} {m : SessionStore}
    {uid args : String} {now : Int} {dl : DownloadOutcome}
    {d : SessionData} {la : Int}
    (huid : uid ≠ "") (hargs : args ≠ "")
    (hm : m uid = some ⟨"waiting_for_song_choice", some d, la⟩)
    (hla : now - la ≤ SESSION_TIMEOUT)
    (hts : now - d.timestamp.getD 0 ≤ SESSION_TIMEOUT) :
    handle_music_select cfg m uid args now dl =
      select_body cfg m uid args now dl d := by
  unfold handle_music_select
  rw [if_neg huid, if_neg hargs, get_session_fresh hm hla]
  simp only [Option.getD_some]
  rw [if_neg (by omega), if_neg (by decide), if_pos trivial]

/-- For a live quality-choice session carrying a selected song and a
fresh inner timestamp, the `/n` handler runs the quality-selection
handler on that song. -/
theorem handle_music_select_quality_choice (cfg : Config) {m : SessionStore}
    {uid args : String} {now : Int} (dl : DownloadOutcome)
    {d : SessionData} {la : Int} {song : Song}
    (huid : uid ≠ "") (hargs : args ≠ "")
    (hm : m uid = some ⟨"waiting_for_quality_choice", some d, la⟩)
    (hla : now - la ≤ SESSION_TIMEOUT)
    (hts : now - d.timestamp.getD 0 ≤ SESSION_TIMEOUT)
    (hsel : d.selected_song = some song) :
    handle_music_select cfg m uid args now dl =
      handle_quality_selection cfg m uid args now song dl := by
  unfold handle_music_select
  rw [if_neg huid, if_neg hargs, get_session_fresh hm hla]
  simp only [Option.getD_some]
  rw [if_neg (by omega), if_pos trivial, hsel]

/-- Claim C1: a first search stores a session whose data dict has no
timestamp key, so the very next `/n` command — at any realistic clock
value, even within the 300s session lifetime — evaluates the inner
freshness check with timestamp 0, sends the expired message, deletes
the session and triggers no selection or pagination. -/
theorem C1_first_search_session_unusable (cfg : Config) (m : SessionStore)
    (uid query args : String) (songs : List Song) (now1 now2 : Int)
    (dl : DownloadOutcome)
    (huid : uid ≠ "") (hq : query ≠ "") (hargs : args ≠ "") (hsongs : songs ≠ [])
    (halive : now2 - now1 ≤ SESSION_TIMEOUT) (hreal : now2 > SESSION_TIMEOUT) :
    ((handle_music_download m uid query now1 (.ok songs)).2 uid =
      some ⟨"waiting_for_song_choice",
        some ⟨some songs, none, none, some query, none⟩, now1⟩) ∧
    (handle_music_select cfg (handle_music_download m uid query now1 (.ok songs)).2
        uid args now2 dl).replies =
      [Reply.text "🎵 歌曲选择" "搜索结果已过期，请重新使用 /y 命令搜索歌曲"] ∧
    (handle_music_select cfg (handle_music_download m uid query now1 (.ok songs)).2
        uid args now2 dl).sessions uid = none ∧
    (handle_music_select cfg (handle_music_download m uid query now1 (.ok songs)).2
        uid args now2 dl).downloads = [] := by
  rw [handle_music_download_ok huid hq hsongs]
  have hm1 : update_session m uid
      ⟨"waiting_for_song_choice", some ⟨some songs, none, none, some query, none⟩⟩
      now1 uid =
      some ⟨"waiting_for_song_choice",
        some ⟨some songs, none, none, some query, none⟩, now1⟩ :=
    update_session_same ..
  refine ⟨hm1, ?_⟩
  have hsel : handle_music_select cfg
      (update_session m uid
        ⟨"waiting_for_song_choice", some ⟨some songs, none, none, some query, none⟩⟩
        now1)
      uid args now2 dl =
      ⟨[Reply.text "🎵 歌曲选择" "搜索结果已过期，请重新使用 /y 命令搜索歌曲"],
        popSession
          (update_session m uid
            ⟨"waiting_for_song_choice",
             some ⟨some songs, none, none, some query, none⟩⟩ now1)
          uid, []⟩ := by
    unfold handle_music_select
    rw [if_neg huid, if_neg hargs, get_session_fresh hm1 (by simpa using halive)]
    simp only [Option.getD_some, Option.getD_none]
    rw [if_pos (by omega)]
  rw [hsel]
  exact ⟨rfl, by simp [popSession], rfl⟩

/-- Witness for C1 at a concrete search followed 100 seconds later by a
concrete selection. -/
theorem C1_first_search_session_unusable_witness :
    (handle_music_select ⟨none, none⟩
      (handle_music_download (fun _ => none) "u" "周杰伦" 1000
        (.ok [⟨"1", "晴天", "周杰伦", ""⟩])).2
      "u" "1" 1100 .exn).replies =
      [Reply.text "🎵 歌曲选择" "搜索结果已过期，请重新使用 /y 命令搜索歌曲"] :=
  (C1_first_search_session_unusable ⟨none, none⟩ (fun _ => none) "u" "周杰伦" "1"
    [⟨"1", "晴天", "周杰伦", ""⟩] 1000 1100 .exn
    (by decide) (by decide) (by decide) (by decide) (by decide) (by decide)).2.1

/-- Concrete store used against C6: the user sits mid-flow in the
quality-choice state. -/
def storeC6 : SessionStore :=
  fun u =>
    if u = "u1" then
      some ⟨"waiting_for_quality_choice",
        some ⟨some [⟨"1", "晴天", "周杰伦", ""⟩], some 1000, some 0, some "q",
              some ⟨"1", "晴天", "周杰伦", ""⟩⟩, 1000⟩
    else none

/-- Counterexample to claim C6: when a search fails against the remote
catalog, the failure message is sent but the user's session is left
exactly as it was — here still mid-flow in the quality-choice state,
not reset to Idle. -/
theorem C6_counterexample_search_failure_keeps_session :
    (handle_music_download storeC6 "u1" "歌" 1001 (.fail "服务不可用")).1 =
      [Reply.text "🎵 音乐搜索结果" "❌ 搜索失败: 服务不可用"] ∧
    (handle_music_download storeC6 "u1" "歌" 1001 (.fail "服务不可用")).2 "u1" =
      some ⟨"waiting_for_quality_choice",
        some ⟨some [⟨"1", "晴天", "周杰伦", ""⟩], some 1000, some 0, some "q",
              some ⟨"1", "晴天", "周杰伦", ""⟩⟩, 1000⟩ ∧
    "waiting_for_quality_choice" ≠ "idle" := by
  refine ⟨by decide, by decide, by decide⟩

/-- Claim C6 as amended: a failed or crashing download surfaces a
failure message naming the download and resets the session to Idle, so
the next command starts cleanly; a failed or crashing search surfaces a
failure message naming the search but leaves the session store
completely unchanged. -/
theorem C6_amended_failure_reporting :
    (∀ (m : SessionStore) (uid args : String) (now : Int) (msg : String),
      uid ≠ "" → args ≠ "" →
      handle_music_download m uid args now (.fail msg) =
        ([Reply.text "🎵 音乐搜索结果" ("❌ 搜索失败: " ++ msg)], m)) ∧
    (∀ (m : SessionStore) (uid args : String) (now : Int),
      uid ≠ "" → args ≠ "" →
      handle_music_download m uid args now .exn =
        ([Reply.text "🎵 音乐下载" "❌ 搜索时发生错误，请稍后重试"], m)) ∧
    (∀ (cfg : Config) (m : SessionStore) (uid : String) (song : Song)
        (qc : String) (now : Int) (msg : String),
      (download_song_with_quality cfg m uid song qc now (.fail msg)).sessions uid =
        some ⟨"idle", none, now⟩ ∧
      (download_song_with_quality cfg m uid song qc now (.fail msg)).replies =
        [Reply.text "🎵 音乐下载完成"
          ("📥 开始下载: " ++ song.name ++ " - " ++ artistDisplay song ++ " ("
            ++ ((quality_options.find? (fun q => q.code = qc)).getD exhighOption).name
            ++ ")\n请稍候..." ++ "\n❌ 下载失败: " ++ msg)]) ∧
    (∀ (cfg : Config) (m : SessionStore) (uid : String) (song : Song)
        (qc : String) (now : Int),
      (download_song_with_quality cfg m uid song qc now .exn).sessions uid =
        some ⟨"idle", none, now⟩ ∧
      (download_song_with_quality cfg m uid song qc now .exn).replies =
        [Reply.text "🎵 音乐下载" "❌ 下载失败: 网络异常，请稍后重试"]) := by
  refine ⟨?_, ?_, ?_, ?_⟩
  · intro m uid args now msg huid hargs
    unfold handle_music_download
    rw [if_neg huid, if_neg hargs]
  · intro m uid args now huid hargs
    unfold handle_music_download
    rw [if_neg huid, if_neg hargs]
  · intro cfg m uid song qc now msg
    exact ⟨update_session_same .., rfl⟩
  · intro cfg m uid song qc now
    exact ⟨update_session_same .., rfl⟩

/-- Witness for C6 as amended, at a concrete failing search and a
concrete failing download. -/
theorem C6_amended_failure_reporting_witness :
    handle_music_download (fun _ => none) "u1" "歌" 0 (.fail "x") =
      ([Reply.text "🎵 音乐搜索结果" ("❌ 搜索失败: " ++ "x")], fun _ => none) ∧
    (download_song_with_quality ⟨none, none⟩ (fun _ => none) "u1"
        ⟨"1", "a", "b", ""⟩ "exhigh" 5 (.fail "x")).sessions "u1" =
      some ⟨"idle", none, 5⟩ :=
  ⟨C6_amended_failure_reporting.1 (fun _ => none) "u1" "歌" 0 "x"
      (by decide) (by decide),
   (C6_amended_failure_reporting.2.2.1 ⟨none, none⟩ (fun _ => none) "u1"
      ⟨"1", "a", "b", ""⟩ "exhigh" 5 "x").1⟩

/-- Anything starts with the empty list. -/
theorem leadsWith_nil (hay : List Char) : leadsWith hay [] = true := by
  cases hay <;> simp [leadsWith]

/-- A list starts with itself, whatever follows. -/
theorem leadsWith_append (s t : List Char) : leadsWith (s ++ t) s = true := by
  induction s with
  | nil => exact leadsWith_nil t
  | cons a as ih => simp [leadsWith, ih]

/-- A leading occurrence survives extending the list on the right. -/
theorem leadsWith_extend (hay sub ext : List Char)
    (h : leadsWith hay sub = true) : leadsWith (hay ++ ext) sub = true := by
  induction sub generalizing hay with
  | nil => exact leadsWith_nil _
  | cons b bs ih =>
    cases hay with
    | nil => simp [leadsWith] at h
    | cons a t =>
      simp only [leadsWith, Bool.and_eq_true] at h ⊢
      exact ⟨h.1, ih t h.2⟩

/-- The empty list occurs in anything. -/
theorem occursIn_nil (hay : List Char) : occursIn hay [] = true := by
  cases hay <;> simp [occursIn, leadsWith]

/-- An occurrence survives extending the list on the right. -/
theorem occursIn_extend (hay sub ext : List Char)
    (h : occursIn hay sub = true) : occursIn (hay ++ ext) sub = true := by
  induction hay with
  | nil =>
    simp only [occursIn, List.isEmpty_iff] at h
    subst h
    exact occursIn_nil ext
  | cons c t ih =>
    simp only [occursIn, Bool.or_eq_true] at h
    rcases h with h | h
    · show occursIn (c :: (t ++ ext)) sub = true
      simp only [occursIn, Bool.or_eq_true]
      exact Or.inl (leadsWith_extend (c :: t) sub ext h)
    · show occursIn (c :: (t ++ ext)) sub = true
      simp only [occursIn, Bool.or_eq_true]
      exact Or.inr (ih h)

/-- A contiguous chunk occurs in the surrounding list. -/
theorem occursIn_append (a s b : List Char) : occursIn (a ++ s ++ b) s = true := by
  induction a with
  | nil =>
    cases s with
    | nil => simpa using occursIn_nil b
    | cons c s' =>
      show occursIn (c :: (s' ++ b)) (c :: s') = true
      simp [occursIn, leadsWith, leadsWith_append]
  | cons x a' ih =>
    show occursIn (x :: (a' ++ s ++ b)) s = true
    simp only [occursIn, Bool.or_eq_true]
    exact Or.inr ih

/-- A string ends with its final appended piece. -/
theorem strOccurs_append_end (x s : String) : strOccurs (x ++ s) s = true := by
  show occursIn (x.data ++ s.data) s.data = true
  simpa using occursIn_append x.data s.data []

/-- A substring occurrence survives appending on the right. -/
theorem strOccurs_extend (x ext s : String) (h : strOccurs x s = true) :
    strOccurs (x ++ ext) s = true :=
  occursIn_extend x.data s.data ext.data h

/-- Counterexample to claim C5: requesting the `lossless` tier while the
service substitutes and reports `标准音质` (the standard tier), the
conversational downloader's user message never mentions the returned
tier name — it carries the requested tier's name instead. -/
theorem C5_counterexample_reports_requested_tier :
    strOccurs
      (replyBody ((download_song_with_quality ⟨none, none⟩ (fun _ => none) "u1"
          ⟨"1", "微微", "傅如乔", ""⟩ "lossless" 0
          (.ok ⟨"微微", "傅如乔", "标准音质", "/app/downloads/m.flac", "3 MB"⟩)).replies.headD
        (Reply.text "" ""))) "标准音质" = false ∧
    strOccurs
      (replyBody ((download_song_with_quality ⟨none, none⟩ (fun _ => none) "u1"
          ⟨"1", "微微", "傅如乔", ""⟩ "lossless" 0
          (.ok ⟨"微微", "傅如乔", "标准音质", "/app/downloads/m.flac", "3 MB"⟩)).replies.headD
        (Reply.text "" ""))) "无损音质" = true := by
  refine ⟨by decide, by decide⟩

/-- Claim C5 as amended: on a successful download the conversational
flow's outcome message is entirely independent of the tier name the
service returns and always carries the display name of the requested
tier; only the MCP download tool surfaces the service-returned
`quality_name`. -/
theorem C5_amended_requested_vs_returned_tier :
    (∀ (cfg : Config) (m : SessionStore) (uid : String) (song : Song)
        (qc : String) (now : Int) (d : DownloadData) (q : String),
      download_song_with_quality cfg m uid song qc now
          (.ok {d with quality_name := q}) =
        download_song_with_quality cfg m uid song qc now (.ok d)) ∧
    (∀ (cfg : Config) (m : SessionStore) (uid : String) (song : Song)
        (qc : String) (now : Int) (d : DownloadData),
      strOccurs
        (replyBody ((download_song_with_quality cfg m uid song qc now
            (.ok d)).replies.headD (Reply.text "" "")))
        ((quality_options.find? (fun q => q.code = qc)).getD exhighOption).name =
        true) ∧
    (∀ (cfg : Config) (d : DownloadData),
      strOccurs (mcp_download_music cfg (.ok d)).1 d.quality_name = true) := by
  refine ⟨fun cfg m uid song qc now d q => rfl, ?_, ?_⟩
  · intro cfg m uid song qc now d
    dsimp only [download_song_with_quality, replyBody, List.headD]
    apply strOccurs_extend
    apply strOccurs_extend
    apply strOccurs_extend
    exact strOccurs_append_end _ _
  · intro cfg d
    dsimp only [mcp_download_music]
    split
    · apply strOccurs_extend
      apply strOccurs_extend
      apply strOccurs_extend
      apply strOccurs_extend
      apply strOccurs_extend
      apply strOccurs_extend
      exact strOccurs_append_end _ _
    · apply strOccurs_extend
      apply strOccurs_extend
      exact strOccurs_append_end _ _

/-- Every download attempt, whatever its outcome, leaves the user's
session at Idle and records exactly one download call with the
requested quality code. -/
theorem download_resets_idle (cfg : Config) (m : SessionStore) (uid : String)
    (song : Song) (qc : String) (now : Int) (dl : DownloadOutcome) :
    (download_song_with_quality cfg m uid song qc now dl).sessions uid =
      some ⟨"idle", none, now⟩ ∧
    (download_song_with_quality cfg m uid song qc now dl).downloads =
      [(song.id, qc)] := by
  cases dl <;> exact ⟨update_session_same .., rfl⟩

/-- A valid quality number resolves to the matching catalog entry's
download. -/
theorem handle_quality_selection_valid {cfg : Config} {m : SessionStore}
    {uid args : String} {now : Int} {song : Song} {dl : DownloadOutcome} {j : Int}
    (hj : pyInt? args = some j) (hj1 : 1 ≤ j) (hj2 : j ≤ 7) :
    handle_quality_selection cfg m uid args now song dl =
      download_song_with_quality cfg (update_session m uid ⟨"idle", none⟩ now) uid
        song ((quality_options.getD (j - 1).toNat exhighOption).code) now dl := by
  unfold handle_quality_selection
  rw [hj]
  have h7 : (quality_options.length : Int) = 7 := by rfl
  exact if_pos (by rw [h7]; omega)

/-- Claim C7: in the track-choice state with N tracks, a numeric
selection outside [1, N] produces the out-of-range error message and
returns the session store exactly as it was, still in the track-choice
state. -/
theorem C7_out_of_range_selection (cfg : Config) (m : SessionStore)
    (uid args : String) (now : Int) (dl : DownloadOutcome) (d : SessionData)
    (la : Int) (songs : List Song) (k : Int)
    (huid : uid ≠ "") (hargs : args ≠ "")
    (hm : m uid = some ⟨"waiting_for_song_choice", some d, la⟩)
    (hla : now - la ≤ SESSION_TIMEOUT)
    (hts : now - d.timestamp.getD 0 ≤ SESSION_TIMEOUT)
    (hsongs : d.songs = some songs)
    (hn : pyLower args ≠ "n") (hp : pyLower args ≠ "p")
    (hk : pyInt? args = some k)
    (hrange : k < 1 ∨ (songs.length : Int) < k) :
    handle_music_select cfg m uid args now dl =
      ⟨[Reply.text "🎵 歌曲选择"
          ("❌ 序号超出范围，请输入 1-" ++ toString songs.length ++ " 之间的数字")],
        m, []⟩ := by
  rw [handle_music_select_song_choice huid hargs hm hla hts]
  unfold select_body
  rw [hsongs]
  simp only [Option.getD_some]
  rw [if_neg hn, if_neg hp, hk]
  exact if_neg (by omega)

/-- Witness for C7: three tracks, selection "5". -/
theorem C7_out_of_range_selection_witness :
    handle_music_select ⟨none, none⟩
      (fun u => if u = "u" then
        some ⟨"waiting_for_song_choice",
          some ⟨some [⟨"1", "晴天", "周杰伦", ""⟩, ⟨"2", "七里香", "周杰伦", ""⟩,
                      ⟨"3", "告白气球", "周杰伦", ""⟩],
                some 1000, some 0, some "周杰伦", none⟩, 1000⟩
       else none)
      "u" "5" 1100 .exn =
      ⟨[Reply.text "🎵 歌曲选择"
          ("❌ 序号超出范围，请输入 1-" ++ toString 3 ++ " 之间的数字")],
        (fun u => if u = "u" then
          some ⟨"waiting_for_song_choice",
            some ⟨some [⟨"1", "晴天", "周杰伦", ""⟩, ⟨"2", "七里香", "周杰伦", ""⟩,
                        ⟨"3", "告白气球", "周杰伦", ""⟩],
                  some 1000, some 0, some "周杰伦", none⟩, 1000⟩
         else none), []⟩ :=
  C7_out_of_range_selection ⟨none, none⟩ _ "u" "5" 1100 .exn
    ⟨some [⟨"1", "晴天", "周杰伦", ""⟩, ⟨"2", "七里香", "周杰伦", ""⟩,
           ⟨"3", "告白气球", "周杰伦", ""⟩], some 1000, some 0, some "周杰伦", none⟩
    1000 [⟨"1", "晴天", "周杰伦", ""⟩, ⟨"2", "七里香", "周杰伦", ""⟩,
          ⟨"3", "告白气球", "周杰伦", ""⟩] 5
    (by decide) (by decide) (by decide) (by decide) (by decide) (by decide)
    (by decide) (by decide) (by decide) (by decide)

/-- An in-range track number under the "ask" default stores the track
and moves the session to the quality-choice state with the menu as the
only reply. -/
theorem select_in_range_ask {cfg : Config} {m : SessionStore} {uid args : String}
    {now : Int} (dl : DownloadOutcome) {d : SessionData} {la : Int}
    {songs : List Song} {k : Int}
    (huid : uid ≠ "") (hargs : args ≠ "")
    (hm : m uid = some ⟨"waiting_for_song_choice", some d, la⟩)
    (hla : now - la ≤ SESSION_TIMEOUT)
    (hts : now - d.timestamp.getD 0 ≤ SESSION_TIMEOUT)
    (hsongs : d.songs = some songs)
    (hask : cfg.default_quality = some "ask")
    (hn : pyLower args ≠ "n") (hp : pyLower args ≠ "p")
    (hk : pyInt? args = some k) (hk1 : 1 ≤ k) (hk2 : k ≤ (songs.length : Int)) :
    handle_music_select cfg m uid args now dl =
      ⟨[Reply.text "🎵 选择音质" format_quality_list],
        update_session m uid
          ⟨"waiting_for_quality_choice",
           some {d with selected_song := some (songs.getD (k - 1).toNat defaultSong)}⟩
          now, []⟩ := by
  rw [handle_music_select_song_choice huid hargs hm hla hts]
  unfold select_body
  rw [hsongs]
  simp only [Option.getD_some]
  rw [if_neg hn, if_neg hp, hk]
  have : orDefaultStr cfg.default_quality "exhigh" = "ask" := by
    rw [hask]
    rfl
  simp only [this, if_pos trivial]
  exact if_pos (by omega)

/-- Claim C4: with the default quality configured as the "ask" sentinel,
an in-range track number records the selected track, moves the session
to the quality-choice state and renders the 7-entry quality menu; a
subsequent in-range quality number j triggers exactly one download with
the j-th catalog tier's code and leaves the session at Idle whatever
the download outcome is. -/
theorem C4_ask_quality_flow (cfg : Config) (m : SessionStore)
    (uid args1 args2 : String) (now1 now2 : Int) (dl : DownloadOutcome)
    (d : SessionData) (la ts : Int) (songs : List Song) (k j : Int)
    (huid : uid ≠ "") (h1 : args1 ≠ "") (h2 : args2 ≠ "")
    (hm : m uid = some ⟨"waiting_for_song_choice", some d, la⟩)
    (hsongs : d.songs = some songs) (hts : d.timestamp = some ts)
    (hla : now1 - la ≤ SESSION_TIMEOUT) (ht1 : now1 - ts ≤ SESSION_TIMEOUT)
    (h12 : now2 - now1 ≤ SESSION_TIMEOUT) (ht2 : now2 - ts ≤ SESSION_TIMEOUT)
    (hask : cfg.default_quality = some "ask")
    (hn : pyLower args1 ≠ "n") (hp : pyLower args1 ≠ "p")
    (hk : pyInt? args1 = some k) (hk1 : 1 ≤ k) (hk2 : k ≤ (songs.length : Int))
    (hj : pyInt? args2 = some j) (hj1 : 1 ≤ j) (hj2 : j ≤ 7) :
    (handle_music_select cfg m uid args1 now1 dl).replies =
      [Reply.text "🎵 选择音质" format_quality_list] ∧
    quality_options.length = 7 ∧
    (handle_music_select cfg m uid args1 now1 dl).sessions uid =
      some ⟨"waiting_for_quality_choice",
        some {d with selected_song := some (songs.getD (k - 1).toNat defaultSong)},
        now1⟩ ∧
    (handle_music_select cfg m uid args1 now1 dl).downloads = [] ∧
    (∀ dl2 : DownloadOutcome,
      (handle_music_select cfg (handle_music_select cfg m uid args1 now1 dl).sessions
          uid args2 now2 dl2).downloads =
        [((songs.getD (k - 1).toNat defaultSong).id,
          (quality_options.getD (j - 1).toNat exhighOption).code)] ∧
      (handle_music_select cfg (handle_music_select cfg m uid args1 now1 dl).sessions
          uid args2 now2 dl2).sessions uid = some ⟨"idle", none, now2⟩) := by
  have hstep1 := select_in_range_ask dl huid h1 hm hla
    (by rw [hts]; simpa using ht1) hsongs hask hn hp hk hk1 hk2
  rw [hstep1]
  refine ⟨rfl, rfl, update_session_same .., rfl, ?_⟩
  intro dl2
  have hm2 : update_session m uid
      ⟨"waiting_for_quality_choice",
       some {d with selected_song := some (songs.getD (k - 1).toNat defaultSong)}⟩
      now1 uid =
      some ⟨"waiting_for_quality_choice",
        some {d with selected_song := some (songs.getD (k - 1).toNat defaultSong)},
        now1⟩ := update_session_same ..
  have hstep2 := handle_music_select_quality_choice cfg dl2
    huid h2 hm2 (by simpa using h12) (by simpa [hts] using ht2) rfl
  rw [hstep2, handle_quality_selection_valid hj hj1 hj2]
  have hdl := download_resets_idle cfg
    (update_session (update_session m uid
      ⟨"waiting_for_quality_choice",
       some {d with selected_song := some (songs.getD (k - 1).toNat defaultSong)}⟩
      now1) uid ⟨"idle", none⟩ now2) uid
    (songs.getD (k - 1).toNat defaultSong)
    ((quality_options.getD (j - 1).toNat exhighOption).code) now2 dl2
  exact ⟨hdl.2, hdl.1⟩

/-- Witness for C4: one track, "ask" default, selection "1" then
quality "2" (the `exhigh` tier). -/
theorem C4_ask_quality_flow_witness :
    (handle_music_select ⟨some "ask", none⟩
      ((handle_music_select ⟨some "ask", none⟩
        (fun u => if u = "u" then
          some ⟨"waiting_for_song_choice",
            some ⟨some [⟨"88", "晴天", "周杰伦", ""⟩], some 1000, some 0, some "q",
                  none⟩, 1000⟩
         else none)
        "u" "1" 1100 .exn).sessions)
      "u" "2" 1200 (.fail "x")).downloads =
      [(("88" : String), ("exhigh" : String))] := by
  have h := C4_ask_quality_flow ⟨some "ask", none⟩
    (fun u => if u = "u" then
      some ⟨"waiting_for_song_choice",
        some ⟨some [⟨"88", "晴天", "周杰伦", ""⟩], some 1000, some 0, some "q", none⟩,
        1000⟩
     else none)
    "u" "1" "2" 1100 1200 .exn
    ⟨some [⟨"88", "晴天", "周杰伦", ""⟩], some 1000, some 0, some "q", none⟩
    1000 1000 [⟨"88", "晴天", "周杰伦", ""⟩] 1 2
    (by decide) (by decide) (by decide) (by decide) (by decide) (by decide)
    (by decide) (by decide) (by decide) (by decide) (by decide) (by decide)
    (by decide) (by decide) (by decide) (by decide) (by decide) (by decide)
    (by decide)
  simpa using (h.2.2.2.2 (.fail "x")).1

/-- Rendering a page whose start index lies inside the list sends the
(nonempty) page slice and stores the page back with a fresh
timestamp. -/
theorem send_page_advance (m : SessionStore) (uid query : String)
    (songs : List Song) (page now : Int)
    (h0 : 0 ≤ page) (hlt : page * 8 < (songs.length : Int)) :
    send_song_list_page_as_media_card m uid query songs page now =
      ([Reply.mediaPage query
          ((songs.drop (page * 8).toNat).take
            (min (page * 8 + 8) (songs.length : Int) - page * 8).toNat) page],
       update_session m uid
         ⟨"waiting_for_song_choice",
          some ⟨some songs, some now, some page, some query, none⟩⟩ now) := by
  unfold send_song_list_page_as_media_card
  dsimp only
  split
  · next hemp =>
    exfalso
    have hl := congrArg List.length hemp
    simp only [List.length_take, List.length_drop, List.length_nil] at hl
    omega
  · rfl

/-- Claim C3: with page size 8 the dispatcher's page count is
`ceil(N/8)` (characterised by `N ≤ 8*totalPages < N+8`); in the
track-choice state the page-forward token advances the page exactly
when `currentPage+1 < totalPages` and otherwise answers "last page"
with the store untouched, and the page-backward token decrements
exactly when `currentPage > 0` and otherwise answers "first page" with
the store untouched. -/
theorem C3_pagination_boundaries (cfg : Config) (m : SessionStore) (uid : String)
    (now : Int) (dl : DownloadOutcome) (d : SessionData) (la ts cp : Int)
    (songs : List Song)
    (huid : uid ≠ "")
    (hm : m uid = some ⟨"waiting_for_song_choice", some d, la⟩)
    (hsongs : d.songs = some songs) (hts : d.timestamp = some ts)
    (hcp : d.current_page = some cp)
    (hla : now - la ≤ SESSION_TIMEOUT) (ht : now - ts ≤ SESSION_TIMEOUT)
    (hcp0 : 0 ≤ cp)
    (hcpR : cp < (((songs.length + 8 - 1) / 8 : Nat) : Int)) :
    (songs.length ≤ 8 * ((songs.length + 8 - 1) / 8) ∧
     8 * ((songs.length + 8 - 1) / 8) < songs.length + 8) ∧
    (cp + 1 < (((songs.length + 8 - 1) / 8 : Nat) : Int) →
      (handle_music_select cfg m uid "n" now dl).sessions uid =
        some ⟨"waiting_for_song_choice",
          some ⟨some songs, some now, some (cp + 1), some (d.query.getD "n"), none⟩,
          now⟩ ∧
      (∃ ps, (handle_music_select cfg m uid "n" now dl).replies =
        [Reply.mediaPage (d.query.getD "n") ps (cp + 1)]) ∧
      (handle_music_select cfg m uid "n" now dl).downloads = []) ∧
    (¬ cp + 1 < (((songs.length + 8 - 1) / 8 : Nat) : Int) →
      handle_music_select cfg m uid "n" now dl =
        ⟨[Reply.text "🎵 歌曲选择" "❌ 已经是最后一页了"], m, []⟩) ∧
    (0 < cp →
      (handle_music_select cfg m uid "p" now dl).sessions uid =
        some ⟨"waiting_for_song_choice",
          some ⟨some songs, some now, some (cp - 1), some (d.query.getD "p"), none⟩,
          now⟩ ∧
      (∃ ps, (handle_music_select cfg m uid "p" now dl).replies =
        [Reply.mediaPage (d.query.getD "p") ps (cp - 1)]) ∧
      (handle_music_select cfg m uid "p" now dl).downloads = []) ∧
    (¬ 0 < cp →
      handle_music_select cfg m uid "p" now dl =
        ⟨[Reply.text "🎵 歌曲选择" "❌ 已经是第一页了"], m, []⟩) := by
  have hdisp : ∀ args : String, args ≠ "" →
      handle_music_select cfg m uid args now dl =
        select_body cfg m uid args now dl d := fun args ha =>
    handle_music_select_song_choice huid ha hm hla (by rw [hts]; simpa using ht)
  refine ⟨by omega, ?_, ?_, ?_, ?_⟩
  · intro h
    rw [hdisp "n" (by decide)]
    unfold select_body
    rw [hsongs, hcp]
    simp only [Option.getD_some]
    rw [if_pos (show pyLower "n" = "n" by decide), if_pos (by omega),
      send_page_advance]
    · exact ⟨update_session_same .., ⟨_, rfl⟩, rfl⟩
    · omega
    · omega
  · intro h
    rw [hdisp "n" (by decide)]
    unfold select_body
    rw [hsongs, hcp]
    simp only [Option.getD_some]
    rw [if_pos (show pyLower "n" = "n" by decide)]
    exact if_neg (by omega)
  · intro h
    rw [hdisp "p" (by decide)]
    unfold select_body
    rw [hsongs, hcp]
    simp only [Option.getD_some]
    rw [if_neg (show ¬ pyLower "p" = "n" by decide),
      if_pos (show pyLower "p" = "p" by decide), if_pos h, send_page_advance]
    · exact ⟨update_session_same .., ⟨_, rfl⟩, rfl⟩
    · omega
    · omega
  · intro h
    rw [hdisp "p" (by decide)]
    unfold select_body
    rw [hsongs, hcp]
    simp only [Option.getD_some]
    rw [if_neg (show ¬ pyLower "p" = "n" by decide),
      if_pos (show pyLower "p" = "p" by decide)]
    exact if_neg h

/-- Witness for C3: nine tracks (two pages), page 0, forward token. -/
theorem C3_pagination_boundaries_witness :
    (handle_music_select ⟨none, none⟩
      (fun u => if u = "u" then
        some ⟨"waiting_for_song_choice",
          some ⟨some (List.replicate 9 ⟨"1", "晴天", "周杰伦", ""⟩),
                some 1000, some 0, some "q", none⟩, 1000⟩
       else none)
      "u" "n" 1100 .exn).sessions "u" =
      some ⟨"waiting_for_song_choice",
        some ⟨some (List.replicate 9 ⟨"1", "晴天", "周杰伦", ""⟩),
              some 1100, some 1, some "q", none⟩, 1100⟩ := by
  have h := (C3_pagination_boundaries ⟨none, none⟩
    (fun u => if u = "u" then
      some ⟨"waiting_for_song_choice",
        some ⟨some (List.replicate 9 ⟨"1", "晴天", "周杰伦", ""⟩),
              some 1000, some 0, some "q", none⟩, 1000⟩
     else none)
    "u" 1100 .exn
    ⟨some (List.replicate 9 ⟨"1", "晴天", "周杰伦", ""⟩),
     some 1000, some 0, some "q", none⟩
    1000 1000 0 (List.replicate 9 ⟨"1", "晴天", "周杰伦", ""⟩)
    (by decide) (by decide) (by decide) (by decide) (by decide) (by decide)
    (by decide) (by decide) (by decide)).2.1 (by decide)
  simpa using h.1

/-- A session obeying the Idle invariant: an idle state string implies
the `data` dict was never stored (so no result list, no selected track,
no selected quality). -/
def idleClean (s : Session) : Prop :=
  s.state = "idle" → s.data = none

/-- Every stored session obeys the Idle invariant. -/
def StoreClean (m : SessionStore) : Prop :=
  ∀ u s, m u = some s → idleClean s

theorem song_choice_not_idle : ¬ ("waiting_for_song_choice" = "idle") := by
  decide

theorem quality_choice_not_idle : ¬ ("waiting_for_quality_choice" = "idle") := by
  decide

theorem storeClean_update {m : SessionStore} (h : StoreClean m) {uid : String}
    {w : SessionWrite} {now : Int} (hw : w.state = "idle" → w.data = none) :
    StoreClean (update_session m uid w now) := by
  intro u s hu
  unfold update_session at hu
  split at hu
  · cases hu
    exact hw
  · exact h u s hu

theorem storeClean_pop {m : SessionStore} (h : StoreClean m) (uid : String) :
    StoreClean (popSession m uid) := by
  intro u s hu
  unfold popSession at hu
  split at hu
  · exact Option.noConfusion hu
  · exact h u s hu

theorem storeClean_get {m : SessionStore} {uid : String} {now : Int}
    (h : StoreClean m) : StoreClean (get_session m uid now).2 := by
  unfold get_session
  cases hmu : m uid with
  | none => exact h
  | some s =>
    dsimp only
    split
    · exact storeClean_pop h uid
    · exact h

theorem storeClean_send_card {m : SessionStore} {uid q : String}
    {songs : List Song} {now : Int} (h : StoreClean m) :
    StoreClean (send_song_list_as_media_card m uid q songs now).2 := by
  unfold send_song_list_as_media_card
  split
  · exact h
  · exact storeClean_update h (fun hidle => absurd hidle song_choice_not_idle)

theorem storeClean_send_page {m : SessionStore} {uid q : String}
    {songs : List Song} {page now : Int} (h : StoreClean m) :
    StoreClean (send_song_list_page_as_media_card m uid q songs page now).2 := by
  unfold send_song_list_page_as_media_card
  dsimp only
  split
  · exact h
  · exact storeClean_update h (fun hidle => absurd hidle song_choice_not_idle)

theorem storeClean_download {cfg : Config} {m : SessionStore} {uid : String}
    {song : Song} {qc : String} {now : Int} {dl : DownloadOutcome}
    (h : StoreClean m) :
    StoreClean (download_song_with_quality cfg m uid song qc now dl).sessions := by
  have hu : StoreClean (update_session m uid ⟨"idle", none⟩ now) :=
    storeClean_update h (fun _ => rfl)
  cases dl <;> exact hu

theorem storeClean_quality {cfg : Config} {m : SessionStore} {uid args : String}
    {now : Int} {song : Song} {dl : DownloadOutcome} (h : StoreClean m) :
    StoreClean (handle_quality_selection cfg m uid args now song dl).sessions := by
  unfold handle_quality_selection
  cases hpi : pyInt? args with
  | none => exact h
  | some k =>
    dsimp only
    split
    · exact storeClean_download (storeClean_update h (fun _ => rfl))
    · exact h

theorem storeClean_select_body {cfg : Config} {m : SessionStore} {uid args : String}
    {now : Int} {dl : DownloadOutcome} {d : SessionData} (h : StoreClean m) :
    StoreClean (select_body cfg m uid args now dl d).sessions := by
  unfold select_body
  dsimp only
  split
  · split
    · exact storeClean_send_page
        (storeClean_update h (fun hidle => absurd hidle song_choice_not_idle))
    · exact h
  · split
    · split
      · exact storeClean_send_page
          (storeClean_update h (fun hidle => absurd hidle song_choice_not_idle))
      · exact h
    · split
      · exact h
      · split
        · split
          · exact storeClean_update h (fun hidle => absurd hidle quality_choice_not_idle)
          · exact storeClean_download h
        · exact h

/-- Claim C10: a session whose state is Idle carries no result list, no
selected track, no pagination cursor and no query (the `data` dict is
absent altogether), and both command handlers — the only writers of the
session store — preserve this invariant on every path, in particular in
the two places that write the Idle state. -/
theorem C10_idle_sessions_carry_no_data :
    (∀ s : Session, idleClean s → s.state = "idle" →
      (s.data.getD SessionData.empty).songs = none ∧
      (s.data.getD SessionData.empty).selected_song = none ∧
      (s.data.getD SessionData.empty).current_page = none ∧
      (s.data.getD SessionData.empty).query = none) ∧
    (∀ (cfg : Config) (m : SessionStore) (uid args : String) (now : Int)
        (dl : DownloadOutcome), StoreClean m →
      StoreClean (handle_music_select cfg m uid args now dl).sessions) ∧
    (∀ (m : SessionStore) (uid args : String) (now : Int) (so : SearchOutcome),
      StoreClean m →
      StoreClean (handle_music_download m uid args now so).2) := by
  refine ⟨?_, ?_, ?_⟩
  · intro s hc hidle
    rw [hc hidle]
    exact ⟨rfl, rfl, rfl, rfl⟩
  · intro cfg m uid args now dl h
    unfold handle_music_select
    split
    · exact h
    · split
      · exact h
      · dsimp only
        split
        · exact storeClean_get h
        · split
          · exact storeClean_pop (storeClean_get h) uid
          · split
            · split
              · exact storeClean_quality (storeClean_get h)
              · exact storeClean_select_body (storeClean_get h)
            · split
              · exact storeClean_select_body (storeClean_get h)
              · exact storeClean_pop (storeClean_get h) uid
  · intro m uid args now so h
    unfold handle_music_download
    split
    · exact h
    · split
      · exact h
      · split
        · exact h
        · exact h
        · split
          · exact h
          · exact storeClean_send_card h

/-- Witness for C10 at the empty store and a concrete selection. -/
theorem C10_idle_sessions_carry_no_data_witness :
    StoreClean ((handle_music_select ⟨none, none⟩ (fun _ => none)
      "u" "1" 0 .exn).sessions) :=
  C10_idle_sessions_carry_no_data.2.1 ⟨none, none⟩ (fun _ => none) "u" "1" 0 .exn
    (fun _ _ h => Option.noConfusion h)

end NeteaseMusic
